import Mathlib

/-!
Shallow embedding of `src/main.cpp` (a WebGPU instance/adapter example):
the synchronous adapter-request wrapper `requestAdapterSync`, the
`inspectAdapter` reporting function and the `main` entry point, together
with theorems settling the specification claims about them.

The external WebGPU API is modelled as an environment record that fixes the
outcome of each API call (instance creation result, adapter-request status,
limits, features, identification info).  Console output is modelled as a
list of printed lines together with the stream's current integer base
(`std::hex` / `std::dec`); calls into the API that acquire or release
resources are recorded in an event trace.
-/

namespace OmniViz

/-- `WGPURequestAdapterStatus_Success` from `webgpu.h` (value `0x00000001`);
any other status value is a failure status. -/
def WGPURequestAdapterStatus_Success : Nat := 1

/-- The `UserData` record local to `requestAdapterSync`
(src/main.cpp lines 49-53): the adapter handle received so far (a null
pointer is `none`) and the completion flag `requestEnded`. -/
structure UserData where
  adapter : Option Nat
  requestEnded : Bool
deriving DecidableEq, Repr

/-- Initialiser of `UserData` (src/main.cpp line 53 with the default member
initialisers of lines 50-51): null adapter, completion flag false. -/
def initUserData : UserData := { adapter := none, requestEnded := false }

/-- The outcome the external API delivers to the request-adapter callback:
a status code, an adapter handle (null is `none`) and a diagnostic
message. -/
structure AdapterResponse where
  status : Nat
  adapter : Option Nat
  message : String
deriving DecidableEq, Repr

/-- The completion callback of `requestAdapterSync`
(src/main.cpp lines 94-102, and identically lines 59-68 on the
emscripten path): on success it stores the adapter handle; otherwise it
prints `Could not get WebGPU adapter: <message>`; in both cases it then
sets `requestEnded` to true.  Returns the updated `UserData` and the
output lines printed. -/
def onAdapterRequestEnded (status : Nat) (adapter : Option Nat)
    (message : String) (ud : UserData) : UserData × List String :=
  if status = WGPURequestAdapterStatus_Success then
    ({ ud with adapter := adapter, requestEnded := true }, [])
  else
    ({ ud with requestEnded := true },
      ["Could not get WebGPU adapter: " ++ message])

/-- Result of one call to `requestAdapterSync`: the returned adapter
handle, the value of `userData.requestEnded` at the `assert` / `return`
point (src/main.cpp lines 109-111), the lines printed during the call,
and how many `wgpuInstanceRequestAdapter` calls were issued. -/
structure RequestResult where
  adapter : Option Nat
  requestEnded : Bool
  out : List String
  requestCalls : Nat
deriving DecidableEq, Repr

/-- `requestAdapterSync` on the native path (src/main.cpp lines 80-111):
one `wgpuInstanceRequestAdapter` call is issued with the callback and a
pointer to the local `UserData`; per the API contract for this calling
convention the callback has fired by the time the call returns, so the
embedding applies `onAdapterRequestEnded` once with the environment's
response `resp`, then returns `userData.adapter` with the flag observed
at the assertion. -/
def requestAdapterSync (resp : AdapterResponse) : RequestResult :=
  let ud := initUserData
  let r := onAdapterRequestEnded resp.status resp.adapter resp.message ud
  { adapter := r.1.adapter
    requestEnded := r.1.requestEnded
    out := r.2
    requestCalls := 1 }

/-- The browser-hosted wait loop of `requestAdapterSync`
(src/main.cpp lines 74-76): `while (!userData.requestEnded)
emscripten_sleep(100);`.  The runtime's pending callback delivery is
modelled by `pending`: `some k` means the callback fires during the
`k`-th sleep; `none` means it has already fired.  `fuel` bounds the
number of iterations so the loop is total; `none` as a result means the
loop was still spinning when fuel ran out. -/
def emscriptenWait (resp : AdapterResponse) :
    Nat → Option Nat → UserData → List String →
    Option (UserData × List String)
  | 0, _, ud, out =>
    if ud.requestEnded then some (ud, out) else none
  | Nat.succ fuel, pending, ud, out =>
    if ud.requestEnded then some (ud, out)
    else
      match pending with
      | some 0 =>
        let r := onAdapterRequestEnded resp.status resp.adapter resp.message ud
        emscriptenWait resp fuel none r.1 (out ++ r.2)
      | some (Nat.succ k) =>
        emscriptenWait resp fuel (some k) ud out
      | none =>
        emscriptenWait resp fuel none ud out

/-- The integer base flag of `std::cout`: `std::dec` (the default) or
`std::hex` (set around the feature and type-code prints). -/
inductive NumBase where
  | dec : NumBase
  | hex : NumBase
deriving DecidableEq, Repr

/-- Formatting of an unsigned integer by `operator<<` under the stream's
current base flag: decimal via `Nat.repr`, hexadecimal in lowercase
(as C++ prints it without `std::uppercase`). -/
def fmtNat : NumBase → Nat → String
  | NumBase.dec, n => toString n
  | NumBase.hex, n => String.mk (Nat.toDigits 16 n)

/-- The state of `std::cout`: the lines printed so far and the current
integer base flag. -/
structure OStream where
  lines : List String
  base : NumBase
deriving DecidableEq, Repr

/-- One `std::cout << ... << std::endl;` statement. -/
def putLine (s : String) (os : OStream) : OStream :=
  { os with lines := os.lines ++ [s] }

/-- `std::cout << std::hex;` / `std::cout << std::dec;`. -/
def setBase (b : NumBase) (os : OStream) : OStream :=
  { os with base := b }

/-- The `WGPULimits` fields printed by `inspectAdapter`
(src/main.cpp lines 155-158); each field is a `uint32_t`. -/
structure WGPULimits where
  maxTextureDimension1D : Nat
  maxTextureDimension2D : Nat
  maxTextureDimension3D : Nat
  maxTextureArrayLayers : Nat
deriving DecidableEq, Repr

/-- The `WGPUAdapterInfo` fields printed by `inspectAdapter`
(src/main.cpp lines 179-187): numeric IDs and type codes plus the
identification strings. -/
structure WGPUAdapterInfo where
  vendorID : Nat
  vendor : String
  architecture : String
  deviceID : Nat
  device : String
  description : String
  adapterType : Nat
  backendType : Nat
deriving DecidableEq, Repr

/-- The answers the external API gives to the queries `inspectAdapter`
performs on the adapter handle: whether `wgpuAdapterGetLimits` reported
success and with which limits, the feature codes `wgpuAdapterGetFeatures`
fills in, and the `wgpuAdapterGetInfo` record. -/
structure InspectEnv where
  limitsOk : Bool
  limits : WGPULimits
  features : List Nat
  info : WGPUAdapterInfo
deriving DecidableEq, Repr

/-- Resource-management calls issued by the program, recorded as a trace:
instance creation, the adapter request, the call into `inspectAdapter`
(with the adapter handle it was passed), the two `FreeMembers` calls,
and the two `Release` calls. -/
inductive Event where
  | createInstance : Event
  | requestAdapter : Event
  | inspectCall : Option Nat → Event
  | freeFeatures : Event
  | freeInfo : Event
  | releaseInstance : Event
  | releaseAdapter : Event
deriving DecidableEq, Repr

/-- Number of occurrences of an event in a trace. -/
def countEvent (e : Event) : List Event → Nat
  | [] => 0
  | x :: xs => (if x = e then 1 else 0) + countEvent e xs

/-- `a` occurs at some position strictly before an occurrence of `b`. -/
def occursBefore (a b : Event) (l : List Event) : Prop :=
  ∃ i j : Fin l.length, (i : Nat) < (j : Nat) ∧ l.get i = a ∧ l.get j = b

instance occursBeforeDecidable (a b : Event) (l : List Event) :
    Decidable (occursBefore a b l) := by
  unfold occursBefore
  infer_instance

/-- The per-iteration body of the feature-printing loop
(src/main.cpp lines 166-168), iterated over the feature codes in order:
each code is printed as ` - 0x` followed by the code under the stream's
current base (which the caller has set to hexadecimal). -/
def printFeatures : List Nat → OStream → OStream
  | [], os => os
  | f :: fs, os => printFeatures fs (putLine (" - 0x" ++ fmtNat os.base f) os)

/-- `inspectAdapter` on the native path (src/main.cpp lines 144-190):
prints the limits section only when `wgpuAdapterGetLimits` reported
success, then the features section in hexadecimal (restoring decimal and
freeing the feature list), then the identification section with the two
type codes in hexadecimal (again restoring decimal and freeing the info
record).  Returns the final stream state and the trace of free calls. -/
def inspectAdapter (env : InspectEnv) (adapter : Option Nat)
    (os : OStream) : OStream × List Event :=
  let os :=
    if env.limitsOk then
      let os := putLine "Adapter limits:" os
      let os := putLine (" - maxTextureDimension1D: " ++
        fmtNat os.base env.limits.maxTextureDimension1D) os
      let os := putLine (" - maxTextureDimension2D: " ++
        fmtNat os.base env.limits.maxTextureDimension2D) os
      let os := putLine (" - maxTextureDimension3D: " ++
        fmtNat os.base env.limits.maxTextureDimension3D) os
      let os := putLine (" - maxTextureArrayLayers: " ++
        fmtNat os.base env.limits.maxTextureArrayLayers) os
      os
    else os
  let os := putLine "Adapter features:" os
  let os := setBase NumBase.hex os
  let os := printFeatures env.features os
  let os := setBase NumBase.dec os
  let ev := [Event.freeFeatures]
  let os := putLine "Adapter properties:" os
  let os := putLine (" - vendorID: " ++ fmtNat os.base env.info.vendorID) os
  let os := putLine (" - vendorName: " ++ env.info.vendor) os
  let os := putLine (" - architecture: " ++ env.info.architecture) os
  let os := putLine (" - deviceID: " ++ fmtNat os.base env.info.deviceID) os
  let os := putLine (" - name: " ++ env.info.device) os
  let os := putLine (" - driverDescription: " ++ env.info.description) os
  let os := setBase NumBase.hex os
  let os := putLine (" - adapterType: 0x" ++
    fmtNat os.base env.info.adapterType) os
  let os := putLine (" - backendType: 0x" ++
    fmtNat os.base env.info.backendType) os
  let os := setBase NumBase.dec os
  (os, ev ++ [Event.freeInfo])

/-- How `std::cout` prints an opaque handle (a `void*` / `WGPUInstance` /
`WGPUAdapter`): the null pointer as `0`, otherwise the address in
hexadecimal with a `0x` prefix. -/
def ptrStr : Option Nat → String
  | none => "0"
  | some n => "0x" ++ String.mk (Nat.toDigits 16 n)

/-- The whole external environment `main` runs against: the result of
`wgpuCreateInstance` (null is `none`), the adapter-request outcome, and
the adapter-query answers. -/
structure Env where
  instanceHandle : Option Nat
  resp : AdapterResponse
  inspect : InspectEnv
deriving DecidableEq, Repr

/-- Result of running `main`: the process exit status, the `std::cout`
lines, the `std::cerr` lines, and the trace of API resource events. -/
structure MainResult where
  exitCode : Nat
  out : List String
  err : List String
  events : List Event
deriving DecidableEq, Repr

/-- The entry point (src/main.cpp lines 192-217): create the instance
(on null print to `std::cerr` and return 1), print the instance handle,
request an adapter via `requestAdapterSync`, print the adapter handle,
inspect the adapter, release the instance, release the adapter,
return 0. -/
def mainProg (env : Env) : MainResult :=
  match env.instanceHandle with
  | none =>
    { exitCode := 1
      out := []
      err := ["Could not initialize WebGPU!"]
      events := [Event.createInstance] }
  | some inst =>
    let out := ["WGPU instance: " ++ ptrStr (some inst),
                "Requesting adapter..."]
    let req := requestAdapterSync env.resp
    let adapter := req.adapter
    let out := out ++ req.out ++ ["Got adapter: " ++ ptrStr adapter]
    let r := inspectAdapter env.inspect adapter { lines := [], base := NumBase.dec }
    { exitCode := 0
      out := out ++ r.1.lines
      err := []
      events := [Event.createInstance, Event.requestAdapter,
                 Event.inspectCall adapter] ++ r.2 ++
                [Event.releaseInstance, Event.releaseAdapter] }

/-! ### Expected output blocks, for stating the inspection claims -/

/-- The limits section as printed when the limits query succeeds:
header plus the four limit values in source order, in decimal. -/
def limitsBlock (l : WGPULimits) : List String :=
  ["Adapter limits:",
   " - maxTextureDimension1D: " ++ toString l.maxTextureDimension1D,
   " - maxTextureDimension2D: " ++ toString l.maxTextureDimension2D,
   " - maxTextureDimension3D: " ++ toString l.maxTextureDimension3D,
   " - maxTextureArrayLayers: " ++ toString l.maxTextureArrayLayers]

/-- The features section: header plus one line per feature code,
formatted as lowercase hexadecimal with a `0x` prefix. -/
def featuresBlock (fs : List Nat) : List String :=
  "Adapter features:" :: fs.map (fun f => " - 0x" ++ fmtNat NumBase.hex f)

/-- The identification section: numeric IDs in decimal, strings verbatim,
and the adapter/backend type codes in hexadecimal with a `0x` prefix. -/
def propertiesBlock (info : WGPUAdapterInfo) : List String :=
  ["Adapter properties:",
   " - vendorID: " ++ toString info.vendorID,
   " - vendorName: " ++ info.vendor,
   " - architecture: " ++ info.architecture,
   " - deviceID: " ++ toString info.deviceID,
   " - name: " ++ info.device,
   " - driverDescription: " ++ info.description,
   " - adapterType: 0x" ++ fmtNat NumBase.hex info.adapterType,
   " - backendType: 0x" ++ fmtNat NumBase.hex info.backendType]

/-! ### Helper lemmas -/

theorem printFeatures_run (fs : List Nat) (os : OStream) :
    printFeatures fs os =
      { lines := os.lines ++ fs.map (fun f => " - 0x" ++ fmtNat os.base f)
        base := os.base } := by
  induction fs generalizing os with
  | nil => simp [printFeatures]
  | cons f fs ih =>
    simp [printFeatures, ih, putLine]

/-- Running `inspectAdapter` from a fresh decimal stream yields the three
sections in order (the limits block only on query success), ends with
the stream restored to decimal, and frees the feature list and the info
record once each. -/
theorem inspectAdapter_run (env : InspectEnv) (adapter : Option Nat) :
    inspectAdapter env adapter { lines := [], base := NumBase.dec } =
      ({ lines := (if env.limitsOk then limitsBlock env.limits else []) ++
            featuresBlock env.features ++ propertiesBlock env.info
         base := NumBase.dec },
       [Event.freeFeatures, Event.freeInfo]) := by
  cases h : env.limitsOk <;>
    simp [inspectAdapter, h, putLine, setBase, printFeatures_run, fmtNat,
      limitsBlock, featuresBlock, propertiesBlock]

theorem emscriptenWait_done (resp : AdapterResponse) (fuel : Nat)
    (pending : Option Nat) (ud : UserData) (out : List String)
    (h : ud.requestEnded = true) :
    emscriptenWait resp fuel pending ud out = some (ud, out) := by
  cases fuel <;> simp [emscriptenWait, h]

theorem emscriptenWait_some_requestEnded (resp : AdapterResponse) :
    ∀ (fuel : Nat) (pending : Option Nat) (ud : UserData)
      (out : List String) (r : UserData × List String),
      emscriptenWait resp fuel pending ud out = some r →
      r.1.requestEnded = true := by
  intro fuel
  induction fuel with
  | zero =>
    intro pending ud out r h
    by_cases hud : ud.requestEnded = true
    · simp [emscriptenWait, hud] at h
      rw [← h]
      exact hud
    · simp [emscriptenWait, hud] at h
  | succ n ih =>
    intro pending ud out r h
    by_cases hud : ud.requestEnded = true
    · simp [emscriptenWait, hud] at h
      rw [← h]
      exact hud
    · rcases pending with _ | k
      · simp [emscriptenWait, hud] at h
        exact ih _ _ _ _ h
      · rcases k with _ | k
        · simp [emscriptenWait, hud] at h
          exact ih _ _ _ _ h
        · simp [emscriptenWait, hud] at h
          exact ih _ _ _ _ h

theorem mainProg_events (env : Env) (inst : Nat)
    (h : env.instanceHandle = some inst) :
    (mainProg env).events =
      [Event.createInstance, Event.requestAdapter,
       Event.inspectCall (requestAdapterSync env.resp).adapter,
       Event.freeFeatures, Event.freeInfo,
       Event.releaseInstance, Event.releaseAdapter] := by
  simp [mainProg, h, inspectAdapter_run]

theorem limits_header_notin_featuresBlock (fs : List Nat) :
    "Adapter limits:" ∉ featuresBlock fs := by
  intro h
  rw [featuresBlock, List.mem_cons] at h
  rcases h with h | h
  · exact absurd h (by decide)
  · rw [List.mem_map] at h
    obtain ⟨f, _, hf⟩ := h
    have hd := congrArg String.data hf
    rw [String.data_append] at hd
    simp at hd

theorem limits_header_notin_propertiesBlock (info : WGPUAdapterInfo) :
    "Adapter limits:" ∉ propertiesBlock info := by
  intro h
  simp only [propertiesBlock, List.mem_cons, List.not_mem_nil, or_false] at h
  rcases h with h | h | h | h | h | h | h | h | h <;>
    first
      | exact absurd h (by decide)
      | (have hd := congrArg String.data h
         rw [String.data_append] at hd
         simp at hd)

/-! ### Stub environments used as concrete inputs -/

/-- A stub adapter-query environment matching the spec examples: a
successful limits query reporting 8192/8192/2048/256, feature codes
`[0x1, 0x2A]`, and a fixed identification record. -/
def inspectStub : InspectEnv :=
  { limitsOk := true
    limits := { maxTextureDimension1D := 8192, maxTextureDimension2D := 8192,
                maxTextureDimension3D := 2048, maxTextureArrayLayers := 256 }
    features := [1, 42]
    info := { vendorID := 4318, vendor := "StubVendor", architecture := "stub-arch",
              deviceID := 1234, device := "StubDevice", description := "stub-driver",
              adapterType := 1, backendType := 2 } }

/-- A run in which every step succeeds: instance handle 7, a successful
adapter request yielding handle 9, and the stub adapter queries. -/
def envOk : Env :=
  { instanceHandle := some 7
    resp := { status := 1, adapter := some 9, message := "" }
    inspect := inspectStub }

/-- A run in which `wgpuCreateInstance` returns null. -/
def envNoInstance : Env :=
  { instanceHandle := none
    resp := { status := 1, adapter := some 9, message := "" }
    inspect := inspectStub }

/-- A run in which instance creation succeeds but the adapter request
fails with status 3 and message `no adapter`. -/
def envFail : Env :=
  { instanceHandle := some 7
    resp := { status := 3, adapter := none, message := "no adapter" }
    inspect := inspectStub }

/-- The stub adapter queries with a failing limits query. -/
def inspectStubNoLimits : InspectEnv :=
  { inspectStub with limitsOk := false }

/-! ### Claims -/

/-- C1: `requestAdapterSync` never returns before the completion callback has
fired: on the native path the completion flag of its `UserData` record is
true at the assertion and return point, and the browser-hosted polling path
can only exit its wait loop in a state whose completion flag is true, so the
assertion on the flag holds on every return path. -/
theorem requestAdapterSync_completes :
    (∀ resp : AdapterResponse,
      (requestAdapterSync resp).requestEnded = true) ∧
    (∀ (resp : AdapterResponse) (fuel : Nat) (pending : Option Nat)
       (ud : UserData) (out : List String) (r : UserData × List String),
      emscriptenWait resp fuel pending ud out = some r →
      r.1.requestEnded = true) := by
  constructor
  · intro resp
    by_cases hs : resp.status = WGPURequestAdapterStatus_Success <;>
      simp [requestAdapterSync, onAdapterRequestEnded, hs]
  · exact fun resp fuel pending ud out r h =>
      emscriptenWait_some_requestEnded resp fuel pending ud out r h

/-- Witness for C1 at a concrete input: a two-fuel polling run whose callback
fires during the first sleep ends in a completed state. -/
theorem requestAdapterSync_completes_witness :
    (({ adapter := some 9, requestEnded := true } : UserData),
      ([] : List String)).1.requestEnded = true :=
  requestAdapterSync_completes.2 { status := 1, adapter := some 9, message := "" }
    2 (some 0) initUserData []
    ({ adapter := some 9, requestEnded := true }, []) rfl

/-- C2 counterexample: on the failed request with status 3 and message
`no adapter`, `requestAdapterSync` returns a null handle and prints exactly
`Could not get WebGPU adapter: no adapter`; that diagnostic does not contain
the status (the digit `3` does not occur in it), refuting the claim that the
message contains the status. -/
theorem requestAdapterSync_status_not_printed :
    (requestAdapterSync { status := 3, adapter := none, message := "no adapter" }).adapter
      = none ∧
    (requestAdapterSync { status := 3, adapter := none, message := "no adapter" }).out
      = ["Could not get WebGPU adapter: no adapter"] ∧
    ¬ ('3' ∈ ("Could not get WebGPU adapter: no adapter").data) :=
  ⟨rfl, rfl, by decide⟩

/-- C2 (amended): assuming the API delivers a non-null adapter handle on a
successful status (its documented contract), `requestAdapterSync` returns a
non-null handle iff the callback reported success; on a failed request it
returns a null handle and prints a diagnostic containing the provided
failure message (but not the status code), the stored handle remaining
null. -/
theorem requestAdapterSync_result_iff_success (resp : AdapterResponse)
    (hvalid : resp.status = WGPURequestAdapterStatus_Success →
      resp.adapter.isSome = true) :
    ((requestAdapterSync resp).adapter.isSome = true ↔
      resp.status = WGPURequestAdapterStatus_Success) ∧
    (resp.status ≠ WGPURequestAdapterStatus_Success →
      (requestAdapterSync resp).adapter = none ∧
      (requestAdapterSync resp).out =
        ["Could not get WebGPU adapter: " ++ resp.message]) := by
  by_cases hs : resp.status = WGPURequestAdapterStatus_Success
  · simp [requestAdapterSync, onAdapterRequestEnded, hs, hvalid hs]
  · simp [requestAdapterSync, onAdapterRequestEnded, initUserData, hs]

/-- Witness for the amended C2 at the concrete failed request of `envFail`. -/
theorem requestAdapterSync_result_iff_success_witness :
    (requestAdapterSync envFail.resp).adapter = none ∧
    (requestAdapterSync envFail.resp).out =
      ["Could not get WebGPU adapter: " ++ envFail.resp.message] :=
  (requestAdapterSync_result_iff_success envFail.resp (by decide)).2 (by decide)

/-- C3 counterexample: in the all-success run `envOk` the event trace of the
entry point performs the inspection call (position 2) strictly before the
instance release (position 5); no occurrence of the instance release precedes
the inspection call, refuting the claim that the release (step 3) occurs
before adapter inspection (step 4). -/
theorem mainProg_release_not_before_inspect :
    (mainProg envOk).events =
      [Event.createInstance, Event.requestAdapter, Event.inspectCall (some 9),
       Event.freeFeatures, Event.freeInfo, Event.releaseInstance,
       Event.releaseAdapter] ∧
    ¬ occursBefore Event.releaseInstance (Event.inspectCall (some 9))
        (mainProg envOk).events :=
  ⟨rfl, by decide⟩

/-- C3 (amended): whenever instance creation succeeded, the entry point
releases the instance exactly once, unconditionally after the adapter request
returns and regardless of the request outcome, and this release occurs after
adapter inspection (and before the adapter release). -/
theorem mainProg_releases_instance_after_inspection (env : Env) (inst : Nat)
    (h : env.instanceHandle = some inst) :
    countEvent Event.releaseInstance (mainProg env).events = 1 ∧
    occursBefore (Event.inspectCall (requestAdapterSync env.resp).adapter)
      Event.releaseInstance (mainProg env).events ∧
    occursBefore Event.releaseInstance Event.releaseAdapter
      (mainProg env).events := by
  rw [mainProg_events env inst h]
  exact ⟨rfl,
    ⟨⟨2, by simp⟩, ⟨5, by simp⟩, by simp, rfl, rfl⟩,
    ⟨⟨5, by simp⟩, ⟨6, by simp⟩, by simp, rfl, rfl⟩⟩

/-- Witness for the amended C3 at the concrete run `envOk`. -/
theorem mainProg_releases_instance_after_inspection_witness :
    countEvent Event.releaseInstance (mainProg envOk).events = 1 ∧
    occursBefore (Event.inspectCall (requestAdapterSync envOk.resp).adapter)
      Event.releaseInstance (mainProg envOk).events ∧
    occursBefore Event.releaseInstance Event.releaseAdapter
      (mainProg envOk).events :=
  mainProg_releases_instance_after_inspection envOk 7 rfl

/-- C4: if instance creation returns null the program reports the error on
stderr and terminates immediately with exit status 1, its whole trace being
the single failed creation (no further steps run); if creation succeeds (in
particular when every step succeeds) it terminates with exit status 0 and
releases the instance exactly once and the adapter exactly once. -/
theorem mainProg_exit_behaviour (env : Env) :
    (env.instanceHandle = none →
      mainProg env =
        { exitCode := 1, out := [],
          err := ["Could not initialize WebGPU!"],
          events := [Event.createInstance] }) ∧
    (∀ inst : Nat, env.instanceHandle = some inst →
      (mainProg env).exitCode = 0 ∧
      countEvent Event.releaseInstance (mainProg env).events = 1 ∧
      countEvent Event.releaseAdapter (mainProg env).events = 1) := by
  constructor
  · intro h
    simp [mainProg, h]
  · intro inst h
    refine ⟨by simp [mainProg, h], ?_, ?_⟩ <;>
      rw [mainProg_events env inst h] <;> rfl

/-- Witness for C4: the null-instance run exits 1 having only attempted
creation; the all-success run exits 0 with exactly one release of each
handle. -/
theorem mainProg_exit_behaviour_witness :
    (mainProg envNoInstance =
      { exitCode := 1, out := [], err := ["Could not initialize WebGPU!"],
        events := [Event.createInstance] }) ∧
    ((mainProg envOk).exitCode = 0 ∧
      countEvent Event.releaseInstance (mainProg envOk).events = 1 ∧
      countEvent Event.releaseAdapter (mainProg envOk).events = 1) :=
  ⟨(mainProg_exit_behaviour envNoInstance).1 rfl,
   (mainProg_exit_behaviour envOk).2 7 rfl⟩

/-- C5: when the limits query reports failure the inspector prints no limits
lines (its whole output is just the features section followed by the
identification section, and the limits header appears nowhere in it), while
both the features section and the identification section are printed. -/
theorem inspectAdapter_skips_limits_on_failure (env : InspectEnv)
    (adapter : Option Nat) (h : env.limitsOk = false) :
    (inspectAdapter env adapter { lines := [], base := NumBase.dec }).1.lines =
      featuresBlock env.features ++ propertiesBlock env.info ∧
    "Adapter limits:" ∉
      (inspectAdapter env adapter { lines := [], base := NumBase.dec }).1.lines ∧
    "Adapter features:" ∈
      (inspectAdapter env adapter { lines := [], base := NumBase.dec }).1.lines ∧
    "Adapter properties:" ∈
      (inspectAdapter env adapter { lines := [], base := NumBase.dec }).1.lines := by
  have hlines :
      (inspectAdapter env adapter { lines := [], base := NumBase.dec }).1.lines =
        featuresBlock env.features ++ propertiesBlock env.info := by
    rw [inspectAdapter_run env adapter]
    simp [h]
  refine ⟨hlines, ?_, ?_, ?_⟩
  · rw [hlines]
    intro hmem
    rcases List.mem_append.mp hmem with hm | hm
    · exact limits_header_notin_featuresBlock env.features hm
    · exact limits_header_notin_propertiesBlock env.info hm
  · rw [hlines]
    simp [featuresBlock]
  · rw [hlines]
    simp [propertiesBlock]

/-- Witness for C5 at the stub adapter whose limits query fails. -/
theorem inspectAdapter_skips_limits_on_failure_witness :
    (inspectAdapter inspectStubNoLimits (some 9)
        { lines := [], base := NumBase.dec }).1.lines =
      featuresBlock inspectStubNoLimits.features ++
        propertiesBlock inspectStubNoLimits.info ∧
    "Adapter limits:" ∉
      (inspectAdapter inspectStubNoLimits (some 9)
        { lines := [], base := NumBase.dec }).1.lines ∧
    "Adapter features:" ∈
      (inspectAdapter inspectStubNoLimits (some 9)
        { lines := [], base := NumBase.dec }).1.lines ∧
    "Adapter properties:" ∈
      (inspectAdapter inspectStubNoLimits (some 9)
        { lines := [], base := NumBase.dec }).1.lines :=
  inspectAdapter_skips_limits_on_failure inspectStubNoLimits (some 9) rfl

/-- C6: when the limits query succeeds the inspector prints, right after the
limits header, exactly four limit values in the order maxTextureDimension1D,
maxTextureDimension2D, maxTextureDimension3D, maxTextureArrayLayers, each
equal to the value the query reported, followed by the remaining sections. -/
theorem inspectAdapter_prints_limits (env : InspectEnv) (adapter : Option Nat)
    (h : env.limitsOk = true) :
    (inspectAdapter env adapter { lines := [], base := NumBase.dec }).1.lines =
      ["Adapter limits:",
       " - maxTextureDimension1D: " ++ toString env.limits.maxTextureDimension1D,
       " - maxTextureDimension2D: " ++ toString env.limits.maxTextureDimension2D,
       " - maxTextureDimension3D: " ++ toString env.limits.maxTextureDimension3D,
       " - maxTextureArrayLayers: " ++ toString env.limits.maxTextureArrayLayers]
      ++ featuresBlock env.features ++ propertiesBlock env.info := by
  rw [inspectAdapter_run env adapter]
  simp [h, limitsBlock]

/-- Witness for C6 at the stub adapter reporting limits 8192/8192/2048/256:
the four values are printed exactly and in that order. -/
theorem inspectAdapter_prints_limits_witness :
    (inspectAdapter inspectStub (some 9)
        { lines := [], base := NumBase.dec }).1.lines =
      ["Adapter limits:",
       " - maxTextureDimension1D: " ++
         toString inspectStub.limits.maxTextureDimension1D,
       " - maxTextureDimension2D: " ++
         toString inspectStub.limits.maxTextureDimension2D,
       " - maxTextureDimension3D: " ++
         toString inspectStub.limits.maxTextureDimension3D,
       " - maxTextureArrayLayers: " ++
         toString inspectStub.limits.maxTextureArrayLayers]
      ++ featuresBlock inspectStub.features ++
        propertiesBlock inspectStub.info ∧
    " - maxTextureDimension1D: " ++
        toString inspectStub.limits.maxTextureDimension1D =
      " - maxTextureDimension1D: 8192" :=
  ⟨inspectAdapter_prints_limits inspectStub (some 9) rfl, rfl⟩

/-- C7: for every feature list returned by the API the inspector prints one
line per feature code, formatted as lowercase hexadecimal with a `0x`
prefix (codes 1 and 0x2A print as `0x1` and `0x2a`), and frees the returned
feature list exactly once. -/
theorem inspectAdapter_features_hex (env : InspectEnv) (adapter : Option Nat) :
    (inspectAdapter env adapter { lines := [], base := NumBase.dec }).1.lines =
      (if env.limitsOk then limitsBlock env.limits else []) ++
        ("Adapter features:" ::
          env.features.map (fun f => " - 0x" ++ String.mk (Nat.toDigits 16 f)))
        ++ propertiesBlock env.info ∧
    countEvent Event.freeFeatures
      (inspectAdapter env adapter { lines := [], base := NumBase.dec }).2 = 1 ∧
    featuresBlock [1, 42] = ["Adapter features:", " - 0x1", " - 0x2a"] := by
  refine ⟨?_, ?_, by decide⟩
  · rw [inspectAdapter_run env adapter]
    simp [featuresBlock, fmtNat]
  · rw [inspectAdapter_run env adapter]
    rfl

/-- C8: within one call to `requestAdapterSync` the completion flag starts
false, is set to true by the completion callback whatever the outcome (its
only transition, false to true), an already-completed state exits the wait
loop immediately and unchanged (the flag is never reset), and a single call
issues exactly one adapter request, so at most one request is outstanding at
a time. -/
theorem completion_flag_invariant :
    initUserData.requestEnded = false ∧
    (∀ (status : Nat) (adapter : Option Nat) (message : String)
       (ud : UserData),
      ((onAdapterRequestEnded status adapter message ud).1).requestEnded
        = true) ∧
    (∀ (resp : AdapterResponse) (fuel : Nat) (pending : Option Nat)
       (ud : UserData) (out : List String), ud.requestEnded = true →
      emscriptenWait resp fuel pending ud out = some (ud, out)) ∧
    (∀ resp : AdapterResponse, (requestAdapterSync resp).requestCalls = 1) := by
  refine ⟨rfl, ?_, ?_, fun resp => rfl⟩
  · intro status adapter message ud
    by_cases hs : status = WGPURequestAdapterStatus_Success <;>
      simp [onAdapterRequestEnded, hs]
  · exact fun resp fuel pending ud out h =>
      emscriptenWait_done resp fuel pending ud out h

/-- Witness for C8: a completed state with pending fuel exits the wait loop
at once, unchanged. -/
theorem completion_flag_invariant_witness :
    emscriptenWait { status := 1, adapter := some 9, message := "" } 5 (some 3)
      { adapter := some 9, requestEnded := true } [] =
      some ({ adapter := some 9, requestEnded := true }, []) :=
  completion_flag_invariant.2.2.1
    { status := 1, adapter := some 9, message := "" } 5 (some 3)
    { adapter := some 9, requestEnded := true } [] rfl

/-- C9: whenever instance creation succeeded, the entry point passes exactly
the handle the request produced to `inspectAdapter`, with no null check in
between; in particular on a failed request the inspection call receives the
null handle. -/
theorem mainProg_inspects_unconditionally (env : Env) (inst : Nat)
    (h : env.instanceHandle = some inst) :
    Event.inspectCall (requestAdapterSync env.resp).adapter
      ∈ (mainProg env).events ∧
    (env.resp.status ≠ WGPURequestAdapterStatus_Success →
      Event.inspectCall none ∈ (mainProg env).events) := by
  constructor
  · rw [mainProg_events env inst h]
    simp
  · intro hfail
    have hnone : (requestAdapterSync env.resp).adapter = none := by
      simp [requestAdapterSync, onAdapterRequestEnded, initUserData, hfail]
    rw [mainProg_events env inst h, hnone]
    simp

/-- Witness for C9 at the failed-request run `envFail`: inspection is called
on the null handle. -/
theorem mainProg_inspects_unconditionally_witness :
    Event.inspectCall (requestAdapterSync envFail.resp).adapter
      ∈ (mainProg envFail).events ∧
    Event.inspectCall none ∈ (mainProg envFail).events :=
  ⟨(mainProg_inspects_unconditionally envFail 7 rfl).1,
   (mainProg_inspects_unconditionally envFail 7 rfl).2 (by decide)⟩

/-- C10: in the identification section the inspector prints vendorID and
deviceID in decimal and the adapterType and backendType codes as
0x-prefixed hexadecimal, and it always leaves the stream in decimal mode on
return (whatever state it ran from), so subsequent numeric output is
unaffected by the hexadecimal mode. -/
theorem inspectAdapter_properties_formats :
    (∀ (env : InspectEnv) (adapter : Option Nat) (os : OStream),
      (inspectAdapter env adapter os).1.base = NumBase.dec) ∧
    (∀ (env : InspectEnv) (adapter : Option Nat),
      (inspectAdapter env adapter { lines := [], base := NumBase.dec }).1.lines =
        (if env.limitsOk then limitsBlock env.limits else []) ++
          featuresBlock env.features ++
          ["Adapter properties:",
           " - vendorID: " ++ toString env.info.vendorID,
           " - vendorName: " ++ env.info.vendor,
           " - architecture: " ++ env.info.architecture,
           " - deviceID: " ++ toString env.info.deviceID,
           " - name: " ++ env.info.device,
           " - driverDescription: " ++ env.info.description,
           " - adapterType: 0x" ++
             String.mk (Nat.toDigits 16 env.info.adapterType),
           " - backendType: 0x" ++
             String.mk (Nat.toDigits 16 env.info.backendType)]) := by
  constructor
  · intro env adapter os
    rfl
  · intro env adapter
    rw [inspectAdapter_run env adapter]
    simp [propertiesBlock, fmtNat]

end OmniViz
